import Mathlib

/-!
Shallow embedding of the data pipeline of `app.py` (a cancer-incidence /
cancer-mortality heatmap application).

The embedded pieces are:
* the two dataset loaders `load_incidence_data` / `load_death_data`
  (file-existence check, euc-kr → utf-8 encoding fallback, and the
  pandas post-processing each performs);
* the wide-to-long melt of the mortality file, including the year-column
  predicate and the year-string normalisation;
* the sex-slice selection for each branch;
* the pivot of `draw_heatmap`: `data.pivot_table(index, columns, values)`
  with the pandas default aggregation (the arithmetic mean of the group),
  followed by `fillna(0)` and the reordering of rows by descending row sum.

Numeric cell values are modelled as rationals; year strings are restricted
to ASCII digit strings (the only ones the claims exercise); scientific
notation is omitted from the numeric-cell parser.
-/

/-! ### String helpers (models of the Python string predicates used) -/

/-- `hay` begins with `pat` (character lists). -/
def beginsWith : List Char → List Char → Bool
  | _, [] => true
  | [], _ :: _ => false
  | h :: hs, p :: ps => h = p && beginsWith hs ps

/-- `pat` occurs as a contiguous substring of `hay` (character lists). -/
def hasSubstrChars (pat : List Char) : List Char → Bool
  | [] => pat.isEmpty
  | c :: rest => beginsWith (c :: rest) pat || hasSubstrChars pat rest

/-- Model of Python's `tok in s` / `Series.str.contains(tok)` for a literal token. -/
def containsTok (s tok : String) : Bool :=
  hasSubstrChars tok.toList s.toList

/-- Model of Python's `str.isnumeric()` restricted to ASCII digit strings. -/
def isNumericStr (s : String) : Bool :=
  !s.toList.isEmpty && s.toList.all Char.isDigit

/-- Model of Python's `str.strip()`: remove leading and trailing whitespace. -/
def pyStrip (s : String) : String :=
  String.mk (((s.toList.dropWhile Char.isWhitespace).reverse.dropWhile
    Char.isWhitespace).reverse)

/-- Replace every non-overlapping occurrence of `pat` in the text, scanning
left to right; `fuel` (instantiated with the text length) bounds recursion. -/
def replaceFuel (pat rep : List Char) : ℕ → List Char → List Char
  | 0, s => s
  | fuel + 1, s =>
    match s with
    | [] => []
    | c :: rest =>
      if !pat.isEmpty && beginsWith s pat then
        rep ++ replaceFuel pat rep fuel (s.drop pat.length)
      else c :: replaceFuel pat rep fuel rest

/-- Model of Python's `str.replace(pat, rep)` for a nonempty literal pattern. -/
def pyReplace (s pat rep : String) : String :=
  String.mk (replaceFuel pat.toList rep.toList s.toList.length s.toList)

/-- Codepoint-lexicographic comparison of character lists. -/
def charListLe : List Char → List Char → Bool
  | [], _ => true
  | _ :: _, [] => false
  | a :: as, b :: bs =>
    if a.toNat < b.toNat then true
    else if b.toNat < a.toNat then false
    else charListLe as bs

/-- Codepoint-lexicographic string comparison, as numpy sorts an object index. -/
def strLe (a b : String) : Bool := charListLe a.toList b.toList

/-- Value of an ASCII digit string, as `int(s)` / `astype(int)` produces on it. -/
def digitsToNat (cs : List Char) : ℕ :=
  cs.foldl (fun a c => a * 10 + (c.toNat - 48)) 0

/-- `astype(int)` on a column already filtered to numeric strings. -/
def strToNat (s : String) : ℕ := digitsToNat s.toList

/-- Unsigned decimal parser: digits, optionally a point and fraction digits.
Returns the mantissa and the number of fraction digits (the parsed value is
`mantissa / 10 ^ fracLen`). -/
def parseUnsignedDec (cs : List Char) : Option (ℤ × ℕ) :=
  let ip := cs.takeWhile Char.isDigit
  let rest := cs.drop ip.length
  match rest with
  | [] => if ip.isEmpty then none else some ((digitsToNat ip : ℤ), 0)
  | c :: fr =>
    if c = '.' && fr.all Char.isDigit && (!ip.isEmpty || !fr.isEmpty) then
      some ((digitsToNat (ip ++ fr) : ℤ), fr.length)
    else none

/-- Signed decimal parser on the stripped cell text (scientific notation is
not modelled); `none` is an unparsable cell. -/
def parseDecimal (s : String) : Option (ℤ × ℕ) :=
  match (pyStrip s).toList with
  | [] => none
  | c :: cs =>
    if c = '-' then (parseUnsignedDec cs).map (fun p => (-p.1, p.2))
    else if c = '+' then parseUnsignedDec cs
    else parseUnsignedDec (c :: cs)

/-- Model of `pd.to_numeric(·, errors='coerce')` on one cell: `none` is NaN. -/
def toNumericQ (s : String) : Option ℚ :=
  (parseDecimal s).map (fun p => (p.1 : ℚ) / 10 ^ p.2)

/-! ### Decoder model

`load_incidence_data` / `load_death_data` both do:
```
if not os.path.exists(filename): return None
try:    df = pd.read_csv(filename, encoding='euc-kr')
except: df = pd.read_csv(filename, encoding='utf-8')
<post-processing>
return df
```
The outcome of one `read_csv` attempt is abstracted as success-with-a-table
or failure-raising; the `except:` block itself is NOT guarded, so a failure
of the utf-8 attempt propagates out of the function. -/

/-- Outcome of a single `pd.read_csv(..., encoding=e)` attempt. -/
inductive ReadCsv (α : Type) where
  | ok : α → ReadCsv α
  | fail : ReadCsv α
deriving DecidableEq, Repr

/-- What a call of a loader does: return data, return the `None` sentinel,
or let an exception escape to the caller. -/
inductive LoadResult (α : Type) where
  | data : α → LoadResult α
  | sentinel : LoadResult α
  | exn : LoadResult α
deriving DecidableEq, Repr

/-- The shared shape of both loaders: existence check, euc-kr attempt,
unguarded utf-8 fallback, then post-processing `post`. -/
def load_with_fallback {α β : Type} (fileExists : Bool)
    (eucKr utf8 : ReadCsv α) (post : α → β) : LoadResult β :=
  if fileExists = false then .sentinel
  else
    match eucKr with
    | .ok t => .data (post t)
    | .fail =>
      match utf8 with
      | .ok t => .data (post t)
      | .fail => .exn

/-! ### Incidence dataset (long shape) -/

/-- One raw row of the incidence csv: 발생연도 (year, still a string),
성별 (sex), 암종 (category), 연령군 (age group), 조발생률 (rate). -/
structure IncRow where
  year : String
  sex : String
  category : String
  ageGroup : String
  value : ℚ
deriving DecidableEq, Repr

/-- An incidence row after `astype(int)` on the year column. -/
structure IncRowOut where
  year : ℕ
  sex : String
  category : String
  ageGroup : String
  value : ℚ
deriving DecidableEq, Repr

/-- `exclude_cancer = ['모든암', '기타 암', '모든 암']`. -/
def exclude_cancer : List String := ["모든암", "기타 암", "모든 암"]

/-- The pandas post-processing of `load_incidence_data`:
keep numeric-year rows, convert the year to int, drop the excluded
aggregate categories, keep only the 연령전체 (all ages) stratum. -/
def load_incidence_filter (rows : List IncRow) : List IncRowOut :=
  ((((rows.filter (fun r => isNumericStr r.year)).map
      (fun r => IncRowOut.mk (strToNat r.year) r.sex r.category r.ageGroup r.value))
    |>.filter (fun r => !(exclude_cancer.contains r.category)))
    |>.filter (fun r => r.ageGroup = "연령전체"))

/-- `load_incidence_data` with the file system and csv parser abstracted. -/
def load_incidence_data (fileExists : Bool)
    (eucKr utf8 : ReadCsv (List IncRow)) : LoadResult (List IncRowOut) :=
  load_with_fallback fileExists eucKr utf8 load_incidence_filter

/-! ### Mortality dataset (wide shape) and its reshaping -/

/-- A long-form observation as consumed by the pivot: 성별, 암종,
발생연도, and the metric value. -/
structure Obs where
  sex : String
  category : String
  year : ℕ
  value : ℚ
deriving DecidableEq, Repr

/-- One raw row of the wide mortality csv: 국가 (country), 성별 (sex),
항목 (item = category), and the per-year cells keyed by column name. -/
structure WideRow where
  country : String
  sex : String
  item : String
  cells : List (String × String)
deriving DecidableEq, Repr

/-- The wide mortality table: its column list and rows; `hasCountry`
models `'국가' in df.columns`. -/
structure WideTable where
  hasCountry : Bool
  columns : List String
  rows : List WideRow
deriving DecidableEq, Repr

/-- Cell of row `r` at column `c` (missing cells read as an empty string,
which the numeric coercion sends to NaN and `fillna` to 0). -/
def getCell (r : WideRow) (c : String) : String :=
  ((r.cells.find? (fun kv => kv.1 = c)).map (fun kv => kv.2)).getD ""

/-- `df[df['국가'].str.contains('한국|대한민국', na=False)]`, applied only
when the table has a 국가 column. -/
def countryFilter (t : WideTable) : List WideRow :=
  if t.hasCountry then
    t.rows.filter (fun r => containsTok r.country "한국" || containsTok r.country "대한민국")
  else t.rows

/-- `year_cols = [c for c in df.columns if '년' in str(c) or str(c).strip().isdigit()]`. -/
def year_cols (cols : List String) : List String :=
  cols.filter (fun c => containsTok c "년" || isNumericStr (pyStrip c))

/-- One melted record: 성별, 항목 (renamed 암종), 발생연도 (still the raw
column name) and 사망률 (still the raw cell text). -/
structure MeltRow where
  sex : String
  category : String
  yearRaw : String
  valueRaw : String
deriving DecidableEq, Repr

/-- `df.melt(id_vars=['성별','항목'], value_vars=year_cols, ...)`:
pandas emits all rows for the first value column, then the next, etc. -/
def meltDeath (cols : List String) (rows : List WideRow) : List MeltRow :=
  (year_cols cols).flatMap
    (fun c => rows.map (fun r => MeltRow.mk r.sex r.item c (getCell r c)))

/-- `.str.replace(' 년', '').str.strip()` on a year column name. -/
def yearNorm (s : String) : String := pyStrip (pyReplace s " 년" "")

/-- The tail of `load_death_data`: normalise the year strings, keep the
numeric ones, convert to int, and coerce the value with
`pd.to_numeric(errors='coerce').fillna(0)`. -/
def deathObsOfMelt (ms : List MeltRow) : List Obs :=
  (ms.filter (fun m => isNumericStr (yearNorm m.yearRaw))).map
    (fun m => Obs.mk m.sex m.category (strToNat (yearNorm m.yearRaw))
      ((toNumericQ m.valueRaw).getD 0))

/-- The pandas post-processing of `load_death_data` on a parsed wide table. -/
def deathTransform (t : WideTable) : List Obs :=
  deathObsOfMelt (meltDeath t.columns (countryFilter t))

/-- `load_death_data` with the file system and csv parser abstracted. -/
def load_death_data (fileExists : Bool)
    (eucKr utf8 : ReadCsv WideTable) : LoadResult (List Obs) :=
  load_with_fallback fileExists eucKr utf8 deathTransform

/-! ### Sex slices -/

/-- Incidence branch: `df_male = target_df[target_df['성별'] == '남자']`. -/
def df_male_inc (rows : List IncRowOut) : List IncRowOut :=
  rows.filter (fun r => r.sex = "남자")

/-- Incidence branch: `df_female = target_df[target_df['성별'] == '여자']`. -/
def df_female_inc (rows : List IncRowOut) : List IncRowOut :=
  rows.filter (fun r => r.sex = "여자")

/-- Death branch: `df_male = target_df[target_df['성별'].str.contains('남')]`. -/
def df_male_death (rows : List Obs) : List Obs :=
  rows.filter (fun r => containsTok r.sex "남")

/-- Death branch: `df_female = target_df[target_df['성별'].str.contains('여')]`. -/
def df_female_death (rows : List Obs) : List Obs :=
  rows.filter (fun r => containsTok r.sex "여")

/-- Project a filtered incidence row to the columns the pivot reads. -/
def incObs (r : IncRowOut) : Obs := Obs.mk r.sex r.category r.year r.value

/-! ### `draw_heatmap`: the pivot

`data.pivot_table(index='암종', columns='발생연도', values=value_col)` groups
by (암종, 발생연도) and takes the pandas-default aggregate, the arithmetic
MEAN of each group; its index and columns are the sorted distinct categories
and years present in `data`. `fillna(0)` then fills the absent combinations,
and the rows are reordered by descending row sum (`sort_values` is stable,
so ties keep the sorted-index order). -/

/-- The values landing in the (category, year) group of the pivot. -/
def cellObs (data : List Obs) (c : String) (y : ℕ) : List ℚ :=
  (data.filter (fun r => r.category = c && r.year = y)).map (fun r => r.value)

/-- The cell after aggregation and `fillna(0)`: mean of the group, 0 when empty. -/
def cellValue (data : List Obs) (c : String) (y : ℕ) : ℚ :=
  let vs := cellObs data c y
  if vs.length = 0 then 0 else vs.sum / (vs.length : ℚ)

/-- Pivot index before reordering: sorted distinct categories of the input. -/
def pivotCats (data : List Obs) : List String :=
  List.insertionSort (fun a b => strLe a b = true) (data.map (fun r => r.category)).dedup

/-- Pivot columns: sorted distinct years of the input. -/
def pivotYears (data : List Obs) : List ℕ :=
  List.insertionSort (· ≤ ·) (data.map (fun r => r.year)).dedup

/-- `df_pivot.sum(axis=1)` for one category row (after `fillna(0)`). -/
def rowSum (data : List Obs) (c : String) : ℚ :=
  ((pivotYears data).map (cellValue data c)).sum

/-- `df_pivot.loc[df_pivot.sum(axis=1).sort_values(ascending=False).index]`:
categories reordered by descending row sum (ties keep the index order). -/
def orderedCats (data : List Obs) : List String :=
  List.insertionSort (fun a b => rowSum data b ≤ rowSum data a) (pivotCats data)

/-- The dense matrix `draw_heatmap` hands to seaborn: one labelled row per
category present, one labelled cell per year present. -/
def pivotMatrix (data : List Obs) : List (String × List (ℕ × ℚ)) :=
  (orderedCats data).map
    (fun c => (c, (pivotYears data).map (fun y => (y, cellValue data c y))))

/-- The per-column rendering guard: `if not df_male.empty: draw_heatmap(...)
else: st.warning(...)` — an empty slice produces no matrix at all. -/
def renderSlice (rows : List Obs) : Option (List (String × List (ℕ × ℚ))) :=
  if rows.isEmpty then none else some (pivotMatrix rows)

/-! ### Helper lemmas -/

theorem charToNat_inj {a b : Char} (h : a.toNat = b.toNat) : a = b := by
  have hm : StrictMono Char.toNat := fun _ _ hlt => hlt
  exact hm.injective h

theorem charListLe_total : ∀ as bs : List Char,
    charListLe as bs = true ∨ charListLe bs as = true
  | [], [] => Or.inl rfl
  | [], _ :: _ => Or.inl rfl
  | _ :: _, [] => Or.inr rfl
  | a :: as, b :: bs => by
    rcases Nat.lt_trichotomy a.toNat b.toNat with h | h | h
    · exact Or.inl (by simp [charListLe, h])
    · rcases charListLe_total as bs with ih | ih
      · exact Or.inl (by simp [charListLe, h, ih])
      · exact Or.inr (by simp [charListLe, h.symm, ih])
    · exact Or.inr (by simp [charListLe, h])

theorem charListLe_trans : ∀ as bs cs : List Char,
    charListLe as bs = true → charListLe bs cs = true → charListLe as cs = true
  | [], _, _, _, _ => rfl
  | _ :: _, [], _, h1, _ => by simp [charListLe] at h1
  | _ :: _, _ :: _, [], _, h2 => by simp [charListLe] at h2
  | a :: as, b :: bs, c :: cs, h1, h2 => by
    simp only [charListLe] at h1 h2 ⊢
    rcases Nat.lt_trichotomy a.toNat b.toNat with hab | hab | hab <;>
      rcases Nat.lt_trichotomy b.toNat c.toNat with hbc | hbc | hbc
    · rw [if_pos (show a.toNat < c.toNat by omega)]
    · rw [if_pos (show a.toNat < c.toNat by omega)]
    · rw [if_neg (show ¬b.toNat < c.toNat by omega),
        if_pos (show c.toNat < b.toNat by omega)] at h2
      exact absurd h2 Bool.false_ne_true
    · rw [if_pos (show a.toNat < c.toNat by omega)]
    · rw [if_neg (show ¬a.toNat < b.toNat by omega),
        if_neg (show ¬b.toNat < a.toNat by omega)] at h1
      rw [if_neg (show ¬b.toNat < c.toNat by omega),
        if_neg (show ¬c.toNat < b.toNat by omega)] at h2
      rw [if_neg (show ¬a.toNat < c.toNat by omega),
        if_neg (show ¬c.toNat < a.toNat by omega)]
      exact charListLe_trans as bs cs h1 h2
    · rw [if_neg (show ¬b.toNat < c.toNat by omega),
        if_pos (show c.toNat < b.toNat by omega)] at h2
      exact absurd h2 Bool.false_ne_true
    · rw [if_neg (show ¬a.toNat < b.toNat by omega),
        if_pos (show b.toNat < a.toNat by omega)] at h1
      exact absurd h1 Bool.false_ne_true
    · rw [if_neg (show ¬a.toNat < b.toNat by omega),
        if_pos (show b.toNat < a.toNat by omega)] at h1
      exact absurd h1 Bool.false_ne_true
    · rw [if_neg (show ¬a.toNat < b.toNat by omega),
        if_pos (show b.toNat < a.toNat by omega)] at h1
      exact absurd h1 Bool.false_ne_true

theorem charListLe_antisymm : ∀ as bs : List Char,
    charListLe as bs = true → charListLe bs as = true → as = bs
  | [], [], _, _ => rfl
  | [], _ :: _, _, h2 => by simp [charListLe] at h2
  | _ :: _, [], h1, _ => by simp [charListLe] at h1
  | a :: as, b :: bs, h1, h2 => by
    simp only [charListLe] at h1 h2
    rcases Nat.lt_trichotomy a.toNat b.toNat with hab | hab | hab
    · rw [if_neg (show ¬b.toNat < a.toNat by omega),
        if_pos (show a.toNat < b.toNat by omega)] at h2
      exact absurd h2 Bool.false_ne_true
    · rw [if_neg (show ¬a.toNat < b.toNat by omega),
        if_neg (show ¬b.toNat < a.toNat by omega)] at h1
      rw [if_neg (show ¬b.toNat < a.toNat by omega),
        if_neg (show ¬a.toNat < b.toNat by omega)] at h2
      rw [charToNat_inj hab, charListLe_antisymm as bs h1 h2]
    · rw [if_neg (show ¬a.toNat < b.toNat by omega),
        if_pos (show b.toNat < a.toNat by omega)] at h1
      exact absurd h1 Bool.false_ne_true

theorem strLe_total (a b : String) : strLe a b = true ∨ strLe b a = true :=
  charListLe_total a.toList b.toList

theorem strLe_trans {a b c : String} (h1 : strLe a b = true) (h2 : strLe b c = true) :
    strLe a c = true :=
  charListLe_trans a.toList b.toList c.toList h1 h2

theorem strLe_antisymm {a b : String} (h1 : strLe a b = true) (h2 : strLe b a = true) :
    a = b :=
  String.ext (charListLe_antisymm a.toList b.toList h1 h2)

/-- Sorting with a total, transitive, antisymmetric order is invariant under
permutation of the input. -/
theorem insertionSort_eq_of_perm {α : Type} {r : α → α → Prop} [DecidableRel r]
    [IsTotal α r] [IsTrans α r] [IsAntisymm α r] {l l' : List α} (h : l.Perm l') :
    List.insertionSort r l = List.insertionSort r l' :=
  List.eq_of_perm_of_sorted
    ((List.perm_insertionSort r l).trans (h.trans (List.perm_insertionSort r l').symm))
    (List.sorted_insertionSort r l) (List.sorted_insertionSort r l')

instance : IsTotal String (fun a b => strLe a b = true) := ⟨strLe_total⟩

instance : IsTrans String (fun a b => strLe a b = true) := ⟨fun _ _ _ => strLe_trans⟩

instance : IsAntisymm String (fun a b => strLe a b = true) := ⟨fun _ _ => strLe_antisymm⟩

/-- The aggregated cell is invariant under permutation of the input rows. -/
theorem cellValue_perm {data data' : List Obs} (h : data.Perm data') :
    cellValue data = cellValue data' := by
  funext c y
  have hp := (h.filter (fun r => r.category = c && r.year = y)).map (fun r => r.value)
  simp only [cellValue, cellObs]
  rw [hp.length_eq, hp.sum_eq]

theorem pivotCats_perm {data data' : List Obs} (h : data.Perm data') :
    pivotCats data = pivotCats data' :=
  insertionSort_eq_of_perm ((h.map _).dedup)

theorem pivotYears_perm {data data' : List Obs} (h : data.Perm data') :
    pivotYears data = pivotYears data' :=
  insertionSort_eq_of_perm ((h.map _).dedup)

theorem rowSum_perm {data data' : List Obs} (h : data.Perm data') :
    rowSum data = rowSum data' := by
  funext c
  rw [rowSum, rowSum, pivotYears_perm h]
  simp only [cellValue_perm h]

theorem orderedCats_perm {data data' : List Obs} (h : data.Perm data') :
    orderedCats data = orderedCats data' := by
  rw [orderedCats, orderedCats, pivotCats_perm h]
  simp only [rowSum_perm h]

/-- The row labels of the matrix are exactly the reordered pivot index. -/
theorem pivotMatrix_fst (data : List Obs) :
    (pivotMatrix data).map Prod.fst = orderedCats data := by
  simp [pivotMatrix, List.map_map, Function.comp_def, List.map_id']

/-- Every row surviving the incidence post-processing is the all-ages
stratum, is not an excluded aggregate category, and took its integer year
from a purely numeric year string of some input row. -/
theorem mem_load_incidence_filter {rows : List IncRow} {r : IncRowOut}
    (h : r ∈ load_incidence_filter rows) :
    r.ageGroup = "연령전체" ∧ r.category ∉ exclude_cancer
      ∧ ∃ raw ∈ rows, isNumericStr raw.year = true ∧ r.year = strToNat raw.year := by
  rw [load_incidence_filter, List.mem_filter] at h
  obtain ⟨h, hage⟩ := h
  rw [List.mem_filter] at h
  obtain ⟨h, hexc⟩ := h
  rw [List.mem_map] at h
  obtain ⟨raw, hraw, rfl⟩ := h
  rw [List.mem_filter] at hraw
  exact ⟨by simpa using hage, by simpa using hexc, raw, hraw.1, hraw.2, rfl⟩

/-- C3 (amended): each loader returns the `None` sentinel exactly when its
file is missing; when euc-kr parses, or euc-kr fails and the utf-8 fallback
parses, it returns the post-processed dataset; but when both encodings fail
the second `read_csv` raises and the exception escapes to the caller — the
fallback read is not guarded by any try/except. -/
theorem C3_loader_fallback :
    (∀ r u : ReadCsv (List IncRow), load_incidence_data false r u = .sentinel)
  ∧ (∀ (t : List IncRow) (u : ReadCsv (List IncRow)),
      load_incidence_data true (.ok t) u = .data (load_incidence_filter t))
  ∧ (∀ t : List IncRow,
      load_incidence_data true .fail (.ok t) = .data (load_incidence_filter t))
  ∧ load_incidence_data true .fail .fail = .exn
  ∧ (∀ r u : ReadCsv WideTable, load_death_data false r u = .sentinel)
  ∧ (∀ (t : WideTable) (u : ReadCsv WideTable),
      load_death_data true (.ok t) u = .data (deathTransform t))
  ∧ (∀ t : WideTable, load_death_data true .fail (.ok t) = .data (deathTransform t))
  ∧ load_death_data true .fail .fail = .exn :=
  ⟨fun _ _ => rfl, fun _ _ => rfl, fun _ => rfl, rfl,
   fun _ _ => rfl, fun _ _ => rfl, fun _ => rfl, rfl⟩

/-- C3 counterexample: with the file present but unparsable under both
encodings, the loader neither returns a dataset nor the sentinel — the
exception escapes, contradicting the claimed never-raise contract. -/
theorem C3_both_encodings_fail_cex :
    load_incidence_data true .fail .fail = .exn
  ∧ (LoadResult.exn : LoadResult (List IncRowOut)) ≠ .sentinel
  ∧ load_death_data true .fail .fail = .exn :=
  ⟨rfl, by decide, rfl⟩

/-- C5: reshaping a wide mortality row with year-bearing columns
{"1999", "2000", "2001 년"} and values {1.0, 2.0, 3.0} yields exactly three
long observations with integer years 1999, 2000, 2001 and the same values;
the year is parsed from the column name after stripping the unit marker and
whitespace. -/
theorem C5_melt_example :
    deathTransform (WideTable.mk false ["성별", "항목", "1999", "2000", "2001 년"]
        [WideRow.mk "" "남자" "위암" [("1999", "1.0"), ("2000", "2.0"), ("2001 년", "3.0")]])
      = [Obs.mk "남자" "위암" 1999 1, Obs.mk "남자" "위암" 2000 2,
         Obs.mk "남자" "위암" 2001 3] := by
  rw [deathTransform,
    show meltDeath (WideTable.mk false ["성별", "항목", "1999", "2000", "2001 년"]
        [WideRow.mk "" "남자" "위암"
          [("1999", "1.0"), ("2000", "2.0"), ("2001 년", "3.0")]]).columns
        (countryFilter (WideTable.mk false ["성별", "항목", "1999", "2000", "2001 년"]
          [WideRow.mk "" "남자" "위암"
            [("1999", "1.0"), ("2000", "2.0"), ("2001 년", "3.0")]]))
      = [MeltRow.mk "남자" "위암" "1999" "1.0", MeltRow.mk "남자" "위암" "2000" "2.0",
         MeltRow.mk "남자" "위암" "2001 년" "3.0"] from by decide]
  simp only [deathObsOfMelt, List.filter, List.map]
  rw [show toNumericQ "1.0" = some 1 from by
        rw [toNumericQ, show parseDecimal "1.0" = some (10, 1) from by decide]; norm_num,
      show toNumericQ "2.0" = some 2 from by
        rw [toNumericQ, show parseDecimal "2.0" = some (20, 1) from by decide]; norm_num,
      show toNumericQ "3.0" = some 3 from by
        rw [toNumericQ, show parseDecimal "3.0" = some (30, 1) from by decide]; norm_num]
  decide

/-- C7: a melted record whose year column normalises to a numeric string is
always emitted (the output has one observation per such record — none is
dropped for its value), and when its value cell has no numeric parse the
emitted observation carries the coerced value 0. -/
theorem C7_unparsable_value_coerced (ms : List MeltRow) :
    (deathObsOfMelt ms).length
        = (ms.filter (fun m => isNumericStr (yearNorm m.yearRaw))).length
  ∧ (∀ m ∈ ms, isNumericStr (yearNorm m.yearRaw) = true → toNumericQ m.valueRaw = none →
      Obs.mk m.sex m.category (strToNat (yearNorm m.yearRaw)) 0 ∈ deathObsOfMelt ms) := by
  constructor
  · rw [deathObsOfMelt, List.length_map]
  · intro m hm hy hv
    rw [deathObsOfMelt]
    refine List.mem_map.mpr ⟨m, List.mem_filter.mpr ⟨hm, hy⟩, ?_⟩
    rw [hv]
    rfl

/-- C9 (amended): in the mortality branch the male slice is exactly the rows
whose sex label contains '남' and the female slice exactly those containing
'여'; a label containing both tokens lands in both slices, so the slices are
not guaranteed disjoint — but the combined label '남녀전체' spells the
syllable '녀', not '여', so it lands only in the male slice. -/
theorem C9_death_sex_slices (rows : List Obs) (r : Obs) (h : r ∈ rows) :
    (r ∈ df_male_death rows ↔ containsTok r.sex "남" = true)
  ∧ (r ∈ df_female_death rows ↔ containsTok r.sex "여" = true)
  ∧ (containsTok r.sex "남" = true → containsTok r.sex "여" = true →
      r ∈ df_male_death rows ∧ r ∈ df_female_death rows) := by
  refine ⟨?_, ?_, fun h1 h2 => ⟨List.mem_filter.mpr ⟨h, h1⟩, List.mem_filter.mpr ⟨h, h2⟩⟩⟩
  · rw [df_male_death, List.mem_filter]
    exact ⟨fun hp => hp.2, fun hp => ⟨h, hp⟩⟩
  · rw [df_female_death, List.mem_filter]
    exact ⟨fun hp => hp.2, fun hp => ⟨h, hp⟩⟩

/-- C9 witness: a sex label containing both tokens is in both slices. -/
theorem C9_death_sex_slices_witness :
    (Obs.mk "남여전체" "위암" 1999 1 ∈ df_male_death [Obs.mk "남여전체" "위암" 1999 1]
        ↔ containsTok (Obs.mk "남여전체" "위암" 1999 1).sex "남" = true)
  ∧ (Obs.mk "남여전체" "위암" 1999 1 ∈ df_female_death [Obs.mk "남여전체" "위암" 1999 1]
        ↔ containsTok (Obs.mk "남여전체" "위암" 1999 1).sex "여" = true)
  ∧ (containsTok (Obs.mk "남여전체" "위암" 1999 1).sex "남" = true →
      containsTok (Obs.mk "남여전체" "위암" 1999 1).sex "여" = true →
      Obs.mk "남여전체" "위암" 1999 1 ∈ df_male_death [Obs.mk "남여전체" "위암" 1999 1]
        ∧ Obs.mk "남여전체" "위암" 1999 1
            ∈ df_female_death [Obs.mk "남여전체" "위암" 1999 1]) :=
  C9_death_sex_slices [Obs.mk "남여전체" "위암" 1999 1] (Obs.mk "남여전체" "위암" 1999 1)
    (List.mem_singleton.mpr rfl)

/-- C9 counterexample: the claim's combined-sexes example '남녀전체' does not
contain the token '여' (its second syllable is '녀'), so such a row is in the
male slice only — not in both slices as the claim asserts. -/
theorem C9_combined_label_cex :
    containsTok "남녀전체" "남" = true ∧ containsTok "남녀전체" "여" = false
  ∧ df_male_death [Obs.mk "남녀전체" "위암" 1999 1] = [Obs.mk "남녀전체" "위암" 1999 1]
  ∧ df_female_death [Obs.mk "남녀전체" "위암" 1999 1] = [] := by decide

/-- C10: every row returned by the incidence loader is the 연령전체 (all
ages) stratum, its category is not an excluded aggregate label, and its year
is the integer read from a purely numeric year string of the raw file. -/
theorem C10_incidence_row_invariant (rows : List IncRow) (r : IncRowOut)
    (h : r ∈ load_incidence_filter rows) :
    r.ageGroup = "연령전체" ∧ r.category ∉ exclude_cancer
      ∧ ∃ raw ∈ rows, isNumericStr raw.year = true ∧ r.year = strToNat raw.year :=
  mem_load_incidence_filter h

/-- C10 witness at a concrete one-row file. -/
theorem C10_incidence_row_invariant_witness :
    (IncRowOut.mk 2001 "남자" "위암" "연령전체" 7).ageGroup = "연령전체"
  ∧ (IncRowOut.mk 2001 "남자" "위암" "연령전체" 7).category ∉ exclude_cancer
  ∧ ∃ raw ∈ [IncRow.mk "2001" "남자" "위암" "연령전체" 7],
      isNumericStr raw.year = true
        ∧ (IncRowOut.mk 2001 "남자" "위암" "연령전체" 7).year = strToNat raw.year :=
  C10_incidence_row_invariant [IncRow.mk "2001" "남자" "위암" "연령전체" 7]
    (IncRowOut.mk 2001 "남자" "위암" "연령전체" 7) (by decide)

/-- C1 (amended): two duplicate rows with the same category and year collapse
into exactly one cell whose value is the arithmetic MEAN `(v1 + v2) / 2` of
the two values (the pandas `pivot_table` default aggregate), not their sum. -/
theorem C1_duplicates_aggregate_to_mean (s1 s2 c : String) (y : ℕ) (v1 v2 : ℚ) :
    pivotMatrix [Obs.mk s1 c y v1, Obs.mk s2 c y v2] = [(c, [(y, (v1 + v2) / 2)])] := by
  have hco : cellObs [Obs.mk s1 c y v1, Obs.mk s2 c y v2] c y = [v1, v2] := by
    simp [cellObs, List.filter]
  have hcv : cellValue [Obs.mk s1 c y v1, Obs.mk s2 c y v2] c y = (v1 + v2) / 2 := by
    rw [cellValue, hco]
    norm_num
  have hcats : pivotCats [Obs.mk s1 c y v1, Obs.mk s2 c y v2] = [c] := by
    rw [pivotCats]
    simp [List.insertionSort, List.dedup_cons_of_mem]
  have hyears : pivotYears [Obs.mk s1 c y v1, Obs.mk s2 c y v2] = [y] := by
    rw [pivotYears]
    simp [List.insertionSort, List.dedup_cons_of_mem]
  have hord : orderedCats [Obs.mk s1 c y v1, Obs.mk s2 c y v2] = [c] := by
    rw [orderedCats, hcats]
    simp [List.insertionSort]
  rw [pivotMatrix, hord, hyears]
  simp [hcv]

/-- C1 counterexample: duplicate rows with values 1 and 3 aggregate to 2
(their mean), not to their sum 4. -/
theorem C1_sum_policy_cex :
    pivotMatrix [Obs.mk "남자" "위암" 1999 1, Obs.mk "남자" "위암" 1999 3]
        = [("위암", [(1999, 2)])]
  ∧ (2 : ℚ) ≠ 1 + 3 := by
  constructor
  · norm_num [pivotMatrix, orderedCats, pivotCats, pivotYears, rowSum, cellValue, cellObs]
  · norm_num

/-- C2 (amended): the matrix axes are derived from the data, not from any
fixed vocabulary: the row labels are exactly the distinct categories present
in the input, ordered by descending row sum; each row carries one labelled
cell per distinct year present, the years in ascending order. -/
theorem C2_axes_data_derived (data : List Obs) :
    ((pivotMatrix data).map Prod.fst).Perm (data.map (fun r => r.category)).dedup
  ∧ List.Pairwise (fun a b => rowSum data b ≤ rowSum data a)
      ((pivotMatrix data).map Prod.fst)
  ∧ (∀ row ∈ pivotMatrix data, row.2.map Prod.fst = pivotYears data)
  ∧ List.Sorted (· ≤ ·) (pivotYears data)
  ∧ (∀ y, y ∈ pivotYears data ↔ y ∈ data.map (fun r => r.year)) := by
  refine ⟨?_, ?_, ?_, ?_, ?_⟩
  · rw [pivotMatrix_fst, orderedCats, pivotCats]
    exact (List.perm_insertionSort _ _).trans (List.perm_insertionSort _ _)
  · rw [pivotMatrix_fst, orderedCats]
    haveI : IsTotal String (fun a b => rowSum data b ≤ rowSum data a) :=
      ⟨fun a b => le_total _ _⟩
    haveI : IsTrans String (fun a b => rowSum data b ≤ rowSum data a) :=
      ⟨fun _ _ _ h1 h2 => le_trans h2 h1⟩
    exact List.sorted_insertionSort _ _
  · intro row hrow
    rw [pivotMatrix] at hrow
    obtain ⟨cc, -, rfl⟩ := List.mem_map.mp hrow
    simp [List.map_map, Function.comp_def, List.map_id']
  · exact List.sorted_insertionSort _ _
  · intro yy
    rw [pivotYears]
    exact ((List.perm_insertionSort _ _).mem_iff).trans List.mem_dedup

/-- Incidence-style example data: "gastric" has the smaller yearly total. -/
def cexA : List Obs := [Obs.mk "m" "gastric" 1999 1, Obs.mk "m" "liver" 1999 2]

/-- Mortality-style example data: "gastric" has the larger yearly total. -/
def cexB : List Obs := [Obs.mk "m" "gastric" 1999 5, Obs.mk "m" "liver" 1999 2]

/-- C2 counterexample: the shared category "gastric" sits at row index 1 in
the matrix built from one input and at row index 0 in the matrix built from
another, so row positions are not fixed by any canonical vocabulary order. -/
theorem C2_fixed_rows_cex :
    (pivotMatrix cexA).map Prod.fst = ["liver", "gastric"]
  ∧ (pivotMatrix cexB).map Prod.fst = ["gastric", "liver"] := by
  constructor
  · have hg : rowSum cexA "gastric" = 1 := by
      rw [rowSum, show pivotYears cexA = [1999] from by decide]
      simp only [List.map]
      rw [show cellValue cexA "gastric" 1999 = 1 from by
        rw [cellValue, show cellObs cexA "gastric" 1999 = [1] from by decide]; norm_num]
      simp
    have hl : rowSum cexA "liver" = 2 := by
      rw [rowSum, show pivotYears cexA = [1999] from by decide]
      simp only [List.map]
      rw [show cellValue cexA "liver" 1999 = 2 from by
        rw [cellValue, show cellObs cexA "liver" 1999 = [2] from by decide]; norm_num]
      simp
    rw [pivotMatrix_fst, orderedCats, show pivotCats cexA = ["gastric", "liver"] from
      by decide]
    simp only [List.insertionSort, List.orderedInsert, hg, hl]
    norm_num
  · have hg : rowSum cexB "gastric" = 5 := by
      rw [rowSum, show pivotYears cexB = [1999] from by decide]
      simp only [List.map]
      rw [show cellValue cexB "gastric" 1999 = 5 from by
        rw [cellValue, show cellObs cexB "gastric" 1999 = [5] from by decide]; norm_num]
      simp
    have hl : rowSum cexB "liver" = 2 := by
      rw [rowSum, show pivotYears cexB = [1999] from by decide]
      simp only [List.map]
      rw [show cellValue cexB "liver" 1999 = 2 from by
        rw [cellValue, show cellObs cexB "liver" 1999 = [2] from by decide]; norm_num]
      simp
    rw [pivotMatrix_fst, orderedCats, show pivotCats cexB = ["gastric", "liver"] from
      by decide]
    simp only [List.insertionSort, List.orderedInsert, hg, hl]
    norm_num

/-- C4 (amended): within the data-derived axes the matrix is dense — every
row carries exactly one labelled cell per year present in the data, a cell
with no underlying observation reads as the fill value 0, and the axes carry
no duplicates; but an input with zero rows produces a matrix with no rows at
all, and the rendering guard skips an empty slice entirely instead of
drawing a full-shape all-zero matrix. -/
theorem C4_dense_over_present_axes :
    (∀ (data : List Obs), ∀ row ∈ pivotMatrix data,
        row.2.map Prod.fst = pivotYears data
          ∧ row.2.length = (pivotYears data).length)
  ∧ (∀ (data : List Obs) (c : String) (y : ℕ),
        cellObs data c y = [] → cellValue data c y = 0)
  ∧ (∀ data : List Obs,
        (pivotYears data).Nodup ∧ ((pivotMatrix data).map Prod.fst).Nodup)
  ∧ pivotMatrix [] = [] ∧ renderSlice [] = none := by
  refine ⟨?_, ?_, ?_, rfl, rfl⟩
  · intro data row hrow
    rw [pivotMatrix] at hrow
    obtain ⟨cc, -, rfl⟩ := List.mem_map.mp hrow
    exact ⟨by simp [List.map_map, Function.comp_def, List.map_id'], by simp⟩
  · intro data c y h
    simp [cellValue, h]
  · intro data
    constructor
    · exact ((List.perm_insertionSort _ _).nodup_iff).mpr (List.nodup_dedup _)
    · rw [pivotMatrix_fst, orderedCats]
      exact ((List.perm_insertionSort _ _).nodup_iff).mpr
        (((List.perm_insertionSort _ _).nodup_iff).mpr (List.nodup_dedup _))

/-- C4 counterexample: an empty (metric, sex) slice does not yield a
full-shape all-zero matrix — the pivot of an empty input has no rows, and
the app's guard draws nothing for it (a warning is shown instead). -/
theorem C4_empty_slice_cex :
    pivotMatrix [] = [] ∧ renderSlice [] = none := ⟨rfl, rfl⟩

/-- C6 (amended): the incidence pipeline has no name-mapping table; instead
it drops exactly the rows whose raw label is in the fixed exclusion list
{'모든암', '기타 암', '모든 암'} (the aggregate labels) and keeps every other
raw label unchanged. An excluded label never appears as a row of any matrix
built from loader output. -/
theorem C6_excluded_never_matrix_rows (rows : List IncRow) (lbl : String)
    (d : List IncRowOut) (h1 : lbl ∈ exclude_cancer)
    (h2 : ∀ r ∈ d, r ∈ load_incidence_filter rows) :
    lbl ∉ (pivotMatrix (d.map incObs)).map Prod.fst := by
  intro hmem
  rw [pivotMatrix_fst, orderedCats] at hmem
  have h3 : lbl ∈ pivotCats (d.map incObs) :=
    (List.perm_insertionSort _ _).mem_iff.mp hmem
  rw [pivotCats] at h3
  have h4 : lbl ∈ ((d.map incObs).map (fun r => r.category)).dedup :=
    (List.perm_insertionSort _ _).mem_iff.mp h3
  rw [List.mem_dedup, List.map_map] at h4
  obtain ⟨r, hr, heq⟩ := List.mem_map.mp h4
  simp only [Function.comp_apply, incObs] at heq
  have h6 := mem_load_incidence_filter (h2 r hr)
  rw [← heq] at h1
  exact h6.2.1 h1

/-- C6 witness: the aggregate label '모든암' never survives to a matrix row. -/
theorem C6_excluded_never_matrix_rows_witness :
    "모든암" ∉ (pivotMatrix ((load_incidence_filter
        [IncRow.mk "2001" "남자" "모든암" "연령전체" 7]).map incObs)).map Prod.fst :=
  C6_excluded_never_matrix_rows [IncRow.mk "2001" "남자" "모든암" "연령전체" 7] "모든암"
    (load_incidence_filter [IncRow.mk "2001" "남자" "모든암" "연령전체" 7])
    (by decide) (fun _ hr => hr)

/-- C6 counterexample: a label with no mapping anywhere ('백혈병' — there is
no mapping table in the code) is retained by the loader, not dropped, and
appears as a matrix row; only the three hard-coded aggregate labels are
dropped. -/
theorem C6_unmapped_label_kept_cex :
    load_incidence_filter [IncRow.mk "2001" "남자" "백혈병" "연령전체" 7]
        = [IncRowOut.mk 2001 "남자" "백혈병" "연령전체" 7]
  ∧ (pivotMatrix ((load_incidence_filter
        [IncRow.mk "2001" "남자" "백혈병" "연령전체" 7]).map incObs)).map Prod.fst
      = ["백혈병"] := by
  refine ⟨by decide, ?_⟩
  rw [pivotMatrix_fst, orderedCats, show pivotCats ((load_incidence_filter
      [IncRow.mk "2001" "남자" "백혈병" "연령전체" 7]).map incObs) = ["백혈병"] from
    by decide]
  simp [List.insertionSort, List.orderedInsert]

/-- C8: the aggregation and matrix construction are order-independent —
permuting the input rows yields an identical matrix. -/
theorem C8_agg_order_independent (data data' : List Obs) (h : data.Perm data') :
    pivotMatrix data = pivotMatrix data' := by
  rw [pivotMatrix, pivotMatrix, orderedCats_perm h]
  simp only [pivotYears_perm h, cellValue_perm h]

/-- C8 witness at a concrete two-row permutation. -/
theorem C8_agg_order_independent_witness :
    pivotMatrix [Obs.mk "남자" "위암" 1999 1, Obs.mk "여자" "간암" 2000 2]
      = pivotMatrix [Obs.mk "여자" "간암" 2000 2, Obs.mk "남자" "위암" 1999 1] :=
  C8_agg_order_independent _ _ (List.Perm.swap _ _ _)
